import Mathlib

/-!
Shallow embedding of the query-plan compiler in `src/main.py` (the `search`
endpoint handler, lines 36-150), together with proofs about it.

The handler builds, from the request parameters, a staged aggregation
pipeline (`stages`, lines 38-135) and then a second minimal pipeline
(`pipeline`, lines 137-149); the aggregate call at line 150 receives
`pipeline`, not `stages`.

Python values appearing in the pipeline are modelled by the inductive
`PyVal`; a dict literal is the ordered list of its key/value pairs.
Three constructs in the handler raise a `TypeError` at run time and are
modelled by `Except`:
  - `datetime(y)` with a single argument (lines 51, 52, 60, 68): CPython's
    `datetime` constructor requires year, month and day, so a one-argument
    call raises `TypeError` whatever `y` is (`PyErr.datetimeArity y`);
  - `None + 1` (lines 52, 68, when the end year was not supplied):
    unsupported operand types (`PyErr.noneAddInt`);
  - the `$sort` dict literal at lines 112-116, whose key is the *list*
    `[sortBy]`: lists are unhashable, so building the dict raises
    `TypeError` for every value of `sortBy` (`PyErr.unhashableList`).
-/

/-- A Python value as it appears in the aggregation pipeline: a string, an
integer, a list, or a dict (ordered key/value pairs). -/
inductive PyVal : Type where
  | str : String → PyVal
  | int : Int → PyVal
  | list : List PyVal → PyVal
  | dict : List (String × PyVal) → PyVal
deriving Repr

/-- The run-time `TypeError`s the handler can raise while building `stages`. -/
inductive PyErr : Type where
  /-- Calling `datetime(y)`: the constructor is missing its required month
  and day arguments. -/
  | datetimeArity : Int → PyErr
  /-- Evaluating `None + 1`: unsupported operand types for `+`. -/
  | noneAddInt : PyErr
  /-- A dict literal whose key is the list `[sortBy]`: unhashable type. -/
  | unhashableList : String → PyErr
deriving Repr, DecidableEq

/-- The query parameters of the `search` endpoint (line 36), with FastAPI's
defaults: every optional parameter defaults to `None`, `pageNumber` to 1,
`pageSize` to 30. -/
structure SearchRequest : Type where
  term : String
  sortBy : Option String := none
  contentType : Option String := none
  providerName : Option String := none
  creatorName : Option String := none
  dataCoverageStart : Option Int := none
  dataCoverageEnd : Option Int := none
  publishedStart : Option Int := none
  publishedEnd : Option Int := none
  pageNumber : Int := 1
  pageSize : Int := 30

/-- Python truthiness of an optional int parameter: `None` and `0` are falsy. -/
def truthyInt : Option Int → Bool
  | none => false
  | some n => n != 0

/-- Python truthiness of an optional string parameter: `None` and the empty
string are falsy. -/
def truthyStr : Option String → Bool
  | none => false
  | some s => s != ""

/-- Calling `datetime` with a single argument always raises `TypeError`:
the constructor requires year, month and day. -/
def datetime1 (y : Int) : Except PyErr PyVal :=
  Except.error (PyErr.datetimeArity y)

/-- Evaluating `v + 1` for an optional int `v`: raises `TypeError` when
`v` is `None`. -/
def pyAddOne : Option Int → Except PyErr Int
  | none => Except.error PyErr.noneAddInt
  | some n => Except.ok (n + 1)

/-- Line 38. -/
def searchPaths : List String := ["name", "description", "keywords"]

/-- Line 39. -/
def highlightPaths : List String :=
  ["name", "description", "keywords", "creator.@list.name"]

/-- Line 40. -/
def autoCompletePaths : List String := ["name", "description", "keywords"]

/-- One autocomplete clause of the `should` set (line 42). -/
def autocompleteClause (term key : String) : PyVal :=
  .dict [("autocomplete", .dict
    [("query", .str term), ("path", .str key),
     ("fuzzy", .dict [("maxEdits", .int 1)])])]

/-- Line 42: the `should` list, one autocomplete clause per path. -/
def buildShould (term : String) : List PyVal :=
  autoCompletePaths.map (autocompleteClause term)

/-- A range clause with `gte` and `lt` bounds (lines 48-54). -/
def rangeGteLt (path : String) (gte lt : PyVal) : PyVal :=
  .dict [("range", .dict [("path", .str path), ("gte", gte), ("lt", lt)])]

/-- A range clause with only a `gte` bound (lines 57-62, 65-70). -/
def rangeGte (path : String) (gte : PyVal) : PyVal :=
  .dict [("range", .dict [("path", .str path), ("gte", gte)])]

/-- Lines 47-54: the publication-date filter.  Guarded by the truthiness of
`publishedStart`; the dict values evaluate in order, `gte` before `lt`. -/
def publishedFilter (r : SearchRequest) : Except PyErr (List PyVal) :=
  match r.publishedStart with
  | none => Except.ok []
  | some y =>
    if y = 0 then Except.ok []
    else do
      let gte ← datetime1 y
      let e ← pyAddOne r.publishedEnd
      let lt ← datetime1 e
      Except.ok [rangeGteLt "datePublished" gte lt]

/-- Lines 56-70: the two temporal-coverage filters.  Both branches are
guarded by the truthiness of `dataCoverageStart` (the second guard at line
64 repeats the first). -/
def coverageFilters (r : SearchRequest) : Except PyErr (List PyVal) :=
  match r.dataCoverageStart with
  | none => Except.ok []
  | some y =>
    if y = 0 then Except.ok []
    else do
      let gte1 ← datetime1 y
      let e ← pyAddOne r.dataCoverageEnd
      let gte2 ← datetime1 e
      Except.ok [rangeGte "temporalCoverage.start" gte1,
                 rangeGte "temporalCoverage.end" gte2]

/-- Lines 45-70: the `filters` list. -/
def buildFilters (r : SearchRequest) : Except PyErr (List PyVal) := do
  let published ← publishedFilter r
  let coverage ← coverageFilters r
  Except.ok (published ++ coverage)

/-- A text clause of the `must` set (lines 72-94). -/
def textClause (path query : String) : PyVal :=
  .dict [("text", .dict [("path", .str path), ("query", .str query)])]

/-- One conditional append of a text clause: fires only when the optional
parameter is truthy. -/
def optTextClause (path : String) (v : Option String) : List PyVal :=
  match v with
  | none => []
  | some q => if q = "" then [] else [textClause path q]

/-- Lines 43, 72-94: the `must` list; guards run in the source order
creatorName, providerName, contentType. -/
def buildMust (r : SearchRequest) : List PyVal :=
  optTextClause "creator.@list.name" r.creatorName
    ++ optTextClause "provider.name" r.providerName
    ++ optTextClause "@type" r.contentType

/-- Lines 96-108: the `$search` stage. -/
def searchStage (filters should must : List PyVal) : PyVal :=
  .dict [("$search", .dict
    [("index", .str "fuzzy_search"),
     ("compound", .dict
       [("filter", .list filters), ("should", .list should),
        ("must", .list must)]),
     ("highlight", .dict [("path", .list (highlightPaths.map PyVal.str))])])]

/-- Lines 111-116: the `$sort` stage.  Its dict literal uses the list
`[sortBy]` as a dictionary key; lists are unhashable in Python, so this
raises `TypeError` for every truthy `sortBy`. -/
def sortStage (sortBy : String) : Except PyErr PyVal :=
  Except.error (PyErr.unhashableList sortBy)

/-- Lines 118-122: the `$skip` stage. -/
def skipStage (r : SearchRequest) : PyVal :=
  .dict [("$skip", .int ((r.pageNumber - 1) * r.pageSize))]

/-- Lines 123-127: the `$limit` stage. -/
def limitStage (r : SearchRequest) : PyVal :=
  .dict [("$limit", .int r.pageSize)]

/-- Lines 128-135: the `$set` stage attaching score and highlights. -/
def setStage : PyVal :=
  .dict [("$set", .dict
    [("score", .dict [("$meta", .str "searchScore")]),
     ("highlights", .dict [("$meta", .str "searchHighlights")])])]

/-- Lines 38-135: the staged plan `stages`, in source order: the `$search`
stage, the `$sort` stage when `sortBy` is truthy, then `$skip`, `$limit`,
`$set`. -/
def buildStages (r : SearchRequest) : Except PyErr (List PyVal) := do
  let should := buildShould r.term
  let filters ← buildFilters r
  let must := buildMust r
  let base := [searchStage filters should must]
  let withSort ←
    match r.sortBy with
    | none => Except.ok base
    | some sb =>
      if sb = "" then Except.ok base
      else do
        let s ← sortStage sb
        Except.ok (base ++ [s])
  Except.ok (withSort ++ [skipStage r, limitStage r, setStage])

/-- Lines 137-149: the `pipeline` variable actually handed to the aggregate
call — a single plain text-search stage. -/
def executedPipeline (r : SearchRequest) : List PyVal :=
  [.dict [("$search", .dict
    [("index", .str "fuzzy_search"),
     ("text", .dict
       [("query", .str r.term),
        ("path", .list [.str "description", .str "name", .str "keywords"])])])]]

/-- The whole handler body (lines 36-150): `stages` is built first (and any
`TypeError` raised there aborts the request), then the aggregate call
receives `executedPipeline`. -/
def search (r : SearchRequest) : Except PyErr (List PyVal) := do
  let _ ← buildStages r
  Except.ok (executedPipeline r)

/-! Observations on compiled plans, used to state the absence-omission and
ordering properties. -/

/-- Whether a clause (a one-key dict wrapping a dict of options) targets the
given field path, i.e. carries a `path` entry equal to it. -/
def clauseTargets (c : PyVal) (path : String) : Bool :=
  match c with
  | .dict [(_, .dict kvs)] =>
    kvs.any (fun kv => kv.1 == "path" &&
      (match kv.2 with | .str s => s == path | _ => false))
  | _ => false

/-- The clauses of a stage: for a `$search` stage, its filter, should and
must sets; any other stage carries no clauses. -/
def stageClauses (st : PyVal) : List PyVal :=
  match st with
  | .dict [("$search", .dict
      [_, ("compound", .dict
        [("filter", .list fs), ("should", .list sh), ("must", .list ms)]),
       _])] => fs ++ sh ++ ms
  | _ => []

/-- All clauses of a plan. -/
def planClauses (plan : List PyVal) : List PyVal :=
  (plan.map stageClauses).flatten

/-- Whether any clause of the plan targets the given field path. -/
def planHasClauseOn (plan : List PyVal) (path : String) : Bool :=
  (planClauses plan).any (fun c => clauseTargets c path)

/-- Whether the plan contains a `$sort` stage. -/
def planHasSortStage (plan : List PyVal) : Bool :=
  plan.any (fun st =>
    match st with
    | .dict kvs => kvs.any (fun kv => kv.1 == "$sort")
    | _ => false)

/-! Characterization of successful plan construction.  `datetime1` fails
unconditionally, so `publishedFilter` and `coverageFilters` succeed exactly
when their guards are falsy — and then contribute nothing; likewise
`sortStage` fails unconditionally, so success forces a falsy `sortBy`. -/

@[simp] lemma except_bind_ok {α β ε : Type} (a : α) (f : α → Except ε β) :
    (Except.ok a : Except ε α) >>= f = f a := rfl

@[simp] lemma except_bind_error {α β ε : Type} (e : ε) (f : α → Except ε β) :
    (Except.error e : Except ε α) >>= f = Except.error e := rfl

lemma publishedFilter_ok (r : SearchRequest) (l : List PyVal)
    (h : publishedFilter r = Except.ok l) :
    l = [] ∧ truthyInt r.publishedStart = false := by
  cases hp : r.publishedStart with
  | none => simp [publishedFilter, hp] at h; simp [truthyInt, hp, h]
  | some y =>
    by_cases hy : y = 0
    · simp [publishedFilter, hp, hy] at h
      simp [truthyInt, hp, hy, h]
    · simp [publishedFilter, hp, hy, datetime1] at h

lemma coverageFilters_ok (r : SearchRequest) (l : List PyVal)
    (h : coverageFilters r = Except.ok l) :
    l = [] ∧ truthyInt r.dataCoverageStart = false := by
  cases hp : r.dataCoverageStart with
  | none => simp [coverageFilters, hp] at h; simp [truthyInt, hp, h]
  | some y =>
    by_cases hy : y = 0
    · simp [coverageFilters, hp, hy] at h
      simp [truthyInt, hp, hy, h]
    · simp [coverageFilters, hp, hy, datetime1] at h

lemma buildFilters_ok (r : SearchRequest) (l : List PyVal)
    (h : buildFilters r = Except.ok l) :
    l = [] ∧ truthyInt r.publishedStart = false ∧
      truthyInt r.dataCoverageStart = false := by
  unfold buildFilters at h
  cases hp : publishedFilter r with
  | error e => simp [hp] at h
  | ok lp =>
    cases hc : coverageFilters r with
    | error e => simp [hp, hc] at h
    | ok lc =>
      simp [hp, hc] at h
      obtain ⟨hlp, hps⟩ := publishedFilter_ok r lp hp
      obtain ⟨hlc, hcs⟩ := coverageFilters_ok r lc hc
      subst hlp; subst hlc
      simpa [hps, hcs] using h.symm

/-- Every successful run of the stage builder produces exactly the four
stages search, skip, limit, set — with an empty filter set (the date guards
must have been falsy, or `datetime1` would have raised) and no sort stage
(`sortBy` must have been falsy, or the sort dict literal would have
raised). -/
lemma buildStages_ok (r : SearchRequest) (s : List PyVal)
    (h : buildStages r = Except.ok s) :
    s = [searchStage [] (buildShould r.term) (buildMust r),
         skipStage r, limitStage r, setStage] ∧
      truthyInt r.publishedStart = false ∧
      truthyInt r.dataCoverageStart = false ∧
      truthyStr r.sortBy = false := by
  unfold buildStages at h
  cases hf : buildFilters r with
  | error e => simp [hf] at h
  | ok lf =>
    obtain ⟨hlf, hps, hcs⟩ := buildFilters_ok r lf hf
    subst hlf
    cases hs : r.sortBy with
    | none =>
      simp [hf, hs] at h
      simp [truthyStr, hs, hps, hcs, ← h]
    | some sb =>
      by_cases hsb : sb = ""
      · simp [hf, hs, hsb] at h
        simp [truthyStr, hs, hsb, hps, hcs, ← h]
      · simp [hf, hs, hsb, sortStage] at h

/-- Successful construction from falsy guards: when `publishedStart`,
`dataCoverageStart` and `sortBy` are all falsy, nothing raises and the
staged plan is the four stages search, skip, limit, set. -/
lemma buildStages_eq (r : SearchRequest)
    (h1 : truthyInt r.publishedStart = false)
    (h2 : truthyInt r.dataCoverageStart = false)
    (h3 : truthyStr r.sortBy = false) :
    buildStages r =
      Except.ok [searchStage [] (buildShould r.term) (buildMust r),
                 skipStage r, limitStage r, setStage] := by
  have hp : publishedFilter r = Except.ok [] := by
    cases hps : r.publishedStart with
    | none => simp [publishedFilter, hps]
    | some y =>
      simp [truthyInt, hps] at h1
      simp [publishedFilter, hps, h1]
  have hc : coverageFilters r = Except.ok [] := by
    cases hcs : r.dataCoverageStart with
    | none => simp [coverageFilters, hcs]
    | some y =>
      simp [truthyInt, hcs] at h2
      simp [coverageFilters, hcs, h2]
  cases hs : r.sortBy with
  | none => simp [buildStages, buildFilters, hp, hc, hs]
  | some sb =>
    simp [truthyStr, hs] at h3
    simp [buildStages, buildFilters, hp, hc, hs, h3]


/-! Reduction lemmas for the clause observers. -/

lemma stageClauses_searchStage (fs sh ms : List PyVal) :
    stageClauses (searchStage fs sh ms) = fs ++ sh ++ ms := rfl

lemma clauseTargets_textClause (p q path : String) :
    clauseTargets (textClause p q) path = (p == path) := by
  simp [clauseTargets, textClause]

lemma clauseTargets_autocomplete (t k path : String) :
    clauseTargets (autocompleteClause t k) path = (k == path) := by
  simp [clauseTargets, autocompleteClause]

lemma any_optTextClause (p path : String) (v : Option String) :
    (optTextClause p v).any (fun c => clauseTargets c path) =
      (truthyStr v && (p == path)) := by
  cases v with
  | none => rfl
  | some q =>
    by_cases hq : q = ""
    · simp [optTextClause, truthyStr, hq]
    · simp [optTextClause, truthyStr, hq, clauseTargets_textClause]

lemma planClauses_okPlan (t : String) (r : SearchRequest) :
    planClauses [searchStage [] (buildShould t) (buildMust r),
                 skipStage r, limitStage r, setStage] =
      buildShould t ++ buildMust r := by
  simp [planClauses, stageClauses_searchStage]
  exact ⟨rfl, rfl, rfl⟩

lemma planHasSortStage_okPlan (t : String) (r : SearchRequest) :
    planHasSortStage [searchStage [] (buildShould t) (buildMust r),
                      skipStage r, limitStage r, setStage] = false := rfl

lemma any_buildShould (t path : String) :
    (buildShould t).any (fun c => clauseTargets c path) =
      (("name" == path) || ("description" == path) || ("keywords" == path)) := by
  simp [buildShould, autoCompletePaths, clauseTargets_autocomplete,
    Bool.or_assoc]

lemma any_buildMust (r : SearchRequest) (path : String) :
    (buildMust r).any (fun c => clauseTargets c path) =
      ((truthyStr r.creatorName && ("creator.@list.name" == path)) ||
       (truthyStr r.providerName && ("provider.name" == path)) ||
       (truthyStr r.contentType && ("@type" == path))) := by
  simp only [buildMust, List.any_append, any_optTextClause, Bool.or_assoc]

lemma planHasClauseOn_okPlan (t path : String) (r : SearchRequest) :
    planHasClauseOn [searchStage [] (buildShould t) (buildMust r),
                     skipStage r, limitStage r, setStage] path =
      (((("name" == path) || ("description" == path) || ("keywords" == path)) ||
        (truthyStr r.creatorName && ("creator.@list.name" == path)) ||
        (truthyStr r.providerName && ("provider.name" == path)) ||
        (truthyStr r.contentType && ("@type" == path)))) := by
  rw [planHasClauseOn, planClauses_okPlan, List.any_append, any_buildShould,
    any_buildMust]
  simp [Bool.or_assoc]

/-! Concrete requests used by the claim theorems and witnesses. -/

def reqC1 : SearchRequest := { term := "climate" }

def reqC4 : SearchRequest := { term := "w", providerName := some "NOAA" }

def planC4 : List PyVal :=
  [searchStage [] (buildShould "w") (buildMust reqC4),
   skipStage reqC4, limitStage reqC4, setStage]

def reqC5 : SearchRequest := { term := "q", pageNumber := 0 }

def reqC5w : SearchRequest := { term := "q2", pageNumber := -1, pageSize := 7 }

def reqC6 : SearchRequest := { term := "t6", pageNumber := 2, pageSize := 10 }

def planC6 : List PyVal :=
  [searchStage [] (buildShould "t6") (buildMust reqC6),
   skipStage reqC6, limitStage reqC6, setStage]

def reqC9a : SearchRequest :=
  { term := "e", dataCoverageStart := some 1980, dataCoverageEnd := some 1990 }

def reqC9b : SearchRequest := { term := "e", dataCoverageEnd := some 1990 }

/-- C1: the claim says the pipeline passed to the aggregate call is the
compiled staged QueryPlan.  In the code it is not: the handler discards the
4-stage `stages` list and aggregates the single-stage minimal text-search
`pipeline` built at lines 137-149.  This theorem evaluates the handler at
the failing input `term = "climate"` (all optional fields absent): the
value handed to aggregate is `executedPipeline`, of length 1, while the
staged plan the request compiles to has length 4. -/
theorem c1_aggregate_receives_minimal_pipeline :
    search reqC1 = Except.ok (executedPipeline reqC1) ∧
    (executedPipeline reqC1).length = 1 ∧
    (buildStages reqC1).map List.length = Except.ok 4 :=
  ⟨rfl, rfl, rfl⟩

/-- C2: the claim says plan building never raises for well-typed input, in
particular when publishedStart is present without publishedEnd, when
dataCoverageStart is present without dataCoverageEnd, and when sortBy is
present.  The code raises a TypeError in all three cases: `datetime(2010)`
and `datetime(1990)` lack the required month and day arguments, and the
`$sort` dict literal uses the unhashable list `[sortBy]` as its key. -/
theorem c2_plan_building_raises_on_welltyped_input :
    buildStages { term := "a", publishedStart := some 2010 } =
      Except.error (PyErr.datetimeArity 2010) ∧
    buildStages { term := "a", dataCoverageStart := some 1990 } =
      Except.error (PyErr.datetimeArity 1990) ∧
    buildStages { term := "a", sortBy := some "name" } =
      Except.error (PyErr.unhashableList "name") :=
  ⟨rfl, rfl, rfl⟩

/-- C3: the claim says the compiled sequence is search, then sort iff
sortBy was supplied, then skip, limit, annotate.  When sortBy is supplied
the code instead raises a TypeError (unhashable list key in the `$sort`
dict literal), so no sequence with a sort stage is ever produced; when
sortBy is absent (second conjunct) the sequence is search, skip, limit,
annotate as described. -/
theorem c3_sorted_request_raises_instead_of_sequencing :
    buildStages { term := "b", sortBy := some "datePublished" } =
      Except.error (PyErr.unhashableList "datePublished") ∧
    buildStages { term := "b2" } =
      Except.ok [searchStage [] (buildShould "b2") [],
                 skipStage { term := "b2" }, limitStage { term := "b2" },
                 setStage] :=
  ⟨rfl, rfl⟩

/-- C4: for every request whose plan construction succeeds, an optional
field left unset contributes no clause targeting its field path.  The
presence of a clause on `@type`, `provider.name` and `creator.@list.name`
equals the truthiness of contentType, providerName and creatorName (so an
unset field, being falsy, yields none — and never a clause with an empty
value, since falsy values fire no clause at all); no successful plan holds
any clause on `datePublished`, `temporalCoverage.start` or
`temporalCoverage.end` (for publishedStart/publishedEnd and
dataCoverageStart/dataCoverageEnd unset this is the claimed omission), and
no successful plan holds a sort stage. -/
theorem c4_absence_omission (r : SearchRequest) (s : List PyVal)
    (h : buildStages r = Except.ok s) :
    planHasClauseOn s "@type" = truthyStr r.contentType ∧
    planHasClauseOn s "provider.name" = truthyStr r.providerName ∧
    planHasClauseOn s "creator.@list.name" = truthyStr r.creatorName ∧
    planHasClauseOn s "datePublished" = false ∧
    planHasClauseOn s "temporalCoverage.start" = false ∧
    planHasClauseOn s "temporalCoverage.end" = false ∧
    planHasSortStage s = false := by
  obtain ⟨hshape, -, -, -⟩ := buildStages_ok r s h
  subst hshape
  refine ⟨?_, ?_, ?_, ?_, ?_, ?_, planHasSortStage_okPlan r.term r⟩ <;>
    simp [planHasClauseOn_okPlan]

/-- Witness for C4 at the concrete request reqC4 (providerName set, every
other optional field unset). -/
theorem c4_absence_omission_witness :
    buildStages reqC4 = Except.ok planC4 ∧
    (planHasClauseOn planC4 "@type" = truthyStr reqC4.contentType ∧
     planHasClauseOn planC4 "provider.name" = truthyStr reqC4.providerName ∧
     planHasClauseOn planC4 "creator.@list.name" = truthyStr reqC4.creatorName ∧
     planHasClauseOn planC4 "datePublished" = false ∧
     planHasClauseOn planC4 "temporalCoverage.start" = false ∧
     planHasClauseOn planC4 "temporalCoverage.end" = false ∧
     planHasSortStage planC4 = false) :=
  ⟨rfl, c4_absence_omission reqC4 planC4 rfl⟩

/-- C5, counterexample: the claim says a request with non-positive
pageNumber is rejected with a client-input error before any plan is built.
At pageNumber = 0 (term "q", everything else absent) the code performs no
validation: it happily builds the full staged plan, whose skip stage
carries the negative count (0 - 1) * 30 = -30. -/
theorem c5_counterexample_no_rejection :
    buildStages reqC5 =
      Except.ok [searchStage [] (buildShould "q") (buildMust reqC5),
                 skipStage reqC5, limitStage reqC5, setStage] ∧
    skipStage reqC5 = PyVal.dict [("$skip", PyVal.int (-30))] :=
  ⟨rfl, rfl⟩

/-- C5, amended: the compiler performs no input validation at all.
Whenever the three crash-prone parameters (publishedStart,
dataCoverageStart, sortBy) are falsy, plan construction succeeds for every
pageNumber and pageSize — non-positive values included — emitting skip
count (pageNumber - 1) * pageSize (possibly negative) and limit pageSize;
inverted date ranges are never examined (any truthy publishedStart or
dataCoverageStart raises a TypeError from `datetime`, inverted or not). -/
theorem c5_no_validation (r : SearchRequest)
    (h1 : truthyInt r.publishedStart = false)
    (h2 : truthyInt r.dataCoverageStart = false)
    (h3 : truthyStr r.sortBy = false) :
    buildStages r =
      Except.ok [searchStage [] (buildShould r.term) (buildMust r),
                 skipStage r, limitStage r, setStage] :=
  buildStages_eq r h1 h2 h3

/-- Witness for C5 amended: pageNumber = -1 and pageSize = 7 compile
without any rejection. -/
theorem c5_no_validation_witness :
    (truthyInt reqC5w.publishedStart = false ∧
     truthyInt reqC5w.dataCoverageStart = false ∧
     truthyStr reqC5w.sortBy = false) ∧
    buildStages reqC5w =
      Except.ok [searchStage [] (buildShould "q2") (buildMust reqC5w),
                 skipStage reqC5w, limitStage reqC5w, setStage] :=
  ⟨⟨rfl, rfl, rfl⟩, c5_no_validation reqC5w rfl rfl rfl⟩

/-- C6: whenever plan construction succeeds, the stage at index 1 is the
skip stage with count (pageNumber - 1) * pageSize and the stage at index 2
is the limit stage with count pageSize — in particular for every positive
pageNumber and pageSize. -/
theorem c6_pagination_arithmetic (r : SearchRequest) (plan : List PyVal)
    (hp : 0 < r.pageNumber) (hs : 0 < r.pageSize)
    (h : buildStages r = Except.ok plan) :
    plan[1]? = some (PyVal.dict
      [("$skip", PyVal.int ((r.pageNumber - 1) * r.pageSize))]) ∧
    plan[2]? = some (PyVal.dict [("$limit", PyVal.int r.pageSize)]) := by
  obtain ⟨hshape, -, -, -⟩ := buildStages_ok r plan h
  subst hshape
  exact ⟨rfl, rfl⟩

/-- Witness for C6: pageNumber = 2, pageSize = 10 give skip 10 and
limit 10. -/
theorem c6_pagination_arithmetic_witness :
    (0 < reqC6.pageNumber ∧ 0 < reqC6.pageSize ∧
     buildStages reqC6 = Except.ok planC6) ∧
    (planC6[1]? = some (PyVal.dict [("$skip", PyVal.int 10)]) ∧
     planC6[2]? = some (PyVal.dict [("$limit", PyVal.int 10)])) :=
  ⟨⟨by decide, by decide, rfl⟩,
   c6_pagination_arithmetic reqC6 planC6 (by decide) (by decide) rfl⟩

/-- C7: the claim says publishedStart = 2010 and publishedEnd = 2015
produce one range clause on datePublished bounded by the start of 2010
(inclusive) and the start of 2016 (exclusive).  The code never gets there:
`datetime(2010)` lacks the required month and day arguments and raises a
TypeError, aborting the request. -/
theorem c7_published_range_raises_typeerror :
    buildStages
        { term := "c", publishedStart := some 2010,
          publishedEnd := some 2015 } =
      Except.error (PyErr.datetimeArity 2010) :=
  rfl

/-- C8: the claim says a request with sortBy present compiles to a plan
with an ascending sort stage placed before skip and limit.  The code
instead raises a TypeError: the `$sort` dict literal uses the list
`[sortBy]` as its key, and lists are unhashable. -/
theorem c8_sortby_raises_typeerror :
    buildStages { term := "d", sortBy := some "score" } =
      Except.error (PyErr.unhashableList "score") :=
  rfl

/-- C9: the claim says a truthy dataCoverageStart adds both coverage range
clauses and an absent dataCoverageStart means dataCoverageEnd contributes
nothing.  The second half holds (second conjunct: with dataCoverageStart
absent and dataCoverageEnd = 1990, the plan is built and carries no clause
on either coverage path), but the first half fails: with dataCoverageStart
= 1980 the code raises a TypeError from `datetime(1980)` before either
clause is appended. -/
theorem c9_coverage_guard :
    buildStages reqC9a = Except.error (PyErr.datetimeArity 1980) ∧
    (buildStages reqC9b).map (fun pl =>
        planHasClauseOn pl "temporalCoverage.start" ||
        planHasClauseOn pl "temporalCoverage.end") = Except.ok false :=
  ⟨rfl, rfl⟩

/-- C10: optional-field presence is decided by Python truthiness, not by
whether a value was supplied: a request carrying the year 0 for
publishedStart or dataCoverageStart, or the empty string for contentType,
providerName, creatorName or sortBy, builds exactly the same stages as the
request with that field absent. -/
theorem c10_truthiness_not_presence (r : SearchRequest) :
    buildStages { r with publishedStart := some 0 } =
      buildStages { r with publishedStart := none } ∧
    buildStages { r with dataCoverageStart := some 0 } =
      buildStages { r with dataCoverageStart := none } ∧
    buildStages { r with contentType := some "" } =
      buildStages { r with contentType := none } ∧
    buildStages { r with providerName := some "" } =
      buildStages { r with providerName := none } ∧
    buildStages { r with creatorName := some "" } =
      buildStages { r with creatorName := none } ∧
    buildStages { r with sortBy := some "" } =
      buildStages { r with sortBy := none } :=
  ⟨rfl, rfl, rfl, rfl, rfl, rfl⟩
